import Mathlib

/-!
Verification of the redaction core of `frontend_dev_assessment`.

The program under study is the view `document_download_redacted` in
`apps/redaction/views.py`: it opens a stored source PDF, and for each page
(0-indexed, in document order) gathers the stored redactions whose JSON
`page` field equals the page's index plus one, converts each redaction's
top-left-origin coordinates into PDF bottom-left-origin coordinates using
the page's media-box height, builds a `/Square` annotation with black fill
and zero border width for the converted rectangle, appends that annotation
to the page's `/Annots` array, and finally appends the page to a fresh
output document.

The embedding below models coordinates as rationals (the Python code
converts each JSON value with `float(...)`; all the arithmetic the claims
exercise is exact), a page as its opaque content stream together with its
media box and annotation list, and the whole request handler as a pure
function over an explicit server state.
-/

namespace RedactionEngine

/-- A rectangle in PDF space, as stored in an annotation's `/Rect` entry:
`[x0, y0, x1, y1]`. -/
structure PdfRect where
  x0 : ℚ
  y0 : ℚ
  x1 : ℚ
  y1 : ℚ
deriving DecidableEq, Repr

/-- The stored coordinate record of a redaction:
`coordinates = {x, y, width, height, page}` as a JSON object.  Every key may
be absent, which the code handles with `coords.get(key, 0)` (and the Django
filter `coordinates__page=...` simply never matches a record whose `page`
key is absent). -/
structure Coordinates where
  x : Option ℚ
  y : Option ℚ
  width : Option ℚ
  height : Option ℚ
  page : Option ℤ
deriving DecidableEq, Repr

/-- A `Redaction` row: its type tag and its coordinate record
(`models.py`; the timestamp plays no role in generation). -/
structure Redaction where
  redaction_type : String
  coordinates : Coordinates
deriving DecidableEq, Repr

/-- The annotation dictionary built by `document_download_redacted`
(views.py lines 135-153): `/Subtype /Square`, `/Rect`, `/C` (border color),
`/IC` (interior color), `/BS /W` (border width). -/
structure SquareAnnot where
  subtype : String
  rect : PdfRect
  color : ℚ × ℚ × ℚ
  interiorColor : ℚ × ℚ × ℚ
  borderWidth : ℚ
deriving DecidableEq, Repr

/-- A PDF page: an opaque content stream (the code never reads or writes
it), the media-box dimensions, and the `/Annots` array. -/
structure Page where
  content : String
  mediaboxWidth : ℚ
  mediaboxHeight : ℚ
  annots : List SquareAnnot
deriving DecidableEq, Repr

/-- A parsed PDF document: its pages in order. -/
structure PdfDocument where
  pages : List Page
deriving DecidableEq, Repr

/-- The annotation built for one redaction on a page of height
`pageHeight` (views.py lines 119-153):
`x = coords.get("x", 0)`,
`y = page_height - coords.get("y", 0) - coords.get("height", 0)`,
`width = coords.get("width", 0)`, `height = coords.get("height", 0)`,
`/Rect = [x, y, x + width, y + height]`, black `/C` and `/IC`,
`/BS /W = 0`. -/
def blackSquareAnnot (pageHeight : ℚ) (coords : Coordinates) : SquareAnnot :=
  let x := coords.x.getD 0
  let y := pageHeight - coords.y.getD 0 - coords.height.getD 0
  let width := coords.width.getD 0
  let height := coords.height.getD 0
  { subtype := "Square"
    rect := { x0 := x, y0 := y, x1 := x + width, y1 := y + height }
    color := (0, 0, 0)
    interiorColor := (0, 0, 0)
    borderWidth := 0 }

/-- The inner loop of `document_download_redacted` (views.py lines
115-157): for each redaction targeting the page, append the black square
annotation to the page's `/Annots` array. -/
def applyPageRedactions (page : Page) (reds : List Redaction) : Page :=
  reds.foldl
    (fun p r =>
      { p with annots := p.annots ++ [blackSquareAnnot p.mediaboxHeight r.coordinates] })
    page

/-- The Django queryset filter `redactions.filter(coordinates__page=page_num + 1)`
(views.py line 112): keep the redactions whose stored `page` key equals the
0-indexed page number plus one. -/
def redactionsForPage (reds : List Redaction) (pageNum : ℕ) : List Redaction :=
  reds.filter (fun r => r.coordinates.page == some ((pageNum : ℤ) + 1))

/-- The page loop `for page_num in range(len(reader.pages))` (views.py
lines 108-159): process the pages in document order, keeping the running
0-indexed page number, and append each processed page to the output. -/
def burnPages (reds : List Redaction) : ℕ → List Page → List Page
  | _, [] => []
  | i, pg :: rest =>
      applyPageRedactions pg (redactionsForPage reds i) :: burnPages reds (i + 1) rest

/-- The whole generation step of `document_download_redacted`: from the
parsed source document and the document's redaction list, the output
document written to the response. -/
def documentDownloadRedacted (doc : PdfDocument) (reds : List Redaction) : PdfDocument :=
  { pages := burnPages reds 0 doc.pages }

/-- Removing every annotation object from a document (what an attacker, or
any PDF tool, can do to the output since annotations are separate objects
in the object graph). -/
def stripAnnotations (doc : PdfDocument) : PdfDocument :=
  { pages := doc.pages.map (fun p => { p with annots := [] }) }

/-- A point lies inside a PDF rectangle. -/
def inRect (r : PdfRect) (p : ℚ × ℚ) : Prop :=
  r.x0 ≤ p.1 ∧ p.1 ≤ r.x1 ∧ r.y0 ≤ p.2 ∧ p.2 ≤ r.y1

instance (r : PdfRect) (p : ℚ × ℚ) : Decidable (inRect r p) := by
  unfold inRect; infer_instance

/-- A point of a page is painted black by the annotation layer: some
annotation with black interior fill covers it. -/
def blackAt (page : Page) (p : ℚ × ℚ) : Prop :=
  ∃ a ∈ page.annots, a.interiorColor = (0, 0, 0) ∧ inRect a.rect p

/-- Two pages are visually indistinguishable: same underlying content
stream, same media box, and the annotation layers paint black exactly the
same points. -/
def pageVisEq (p q : Page) : Prop :=
  p.content = q.content ∧ p.mediaboxWidth = q.mediaboxWidth ∧
    p.mediaboxHeight = q.mediaboxHeight ∧ ∀ pt, blackAt p pt ↔ blackAt q pt

/-- Two documents are visually indistinguishable: page-by-page visual
equality (which forces equal page counts and order). -/
def docVisEq (d e : PdfDocument) : Prop :=
  List.Forall₂ pageVisEq d.pages e.pages

/-- Two redaction coordinate records overlap in UI space: same target page
and open-interval intersection on both axes. -/
def uiOverlap (c d : Coordinates) : Prop :=
  c.page = d.page ∧
    c.x.getD 0 < d.x.getD 0 + d.width.getD 0 ∧
    d.x.getD 0 < c.x.getD 0 + c.width.getD 0 ∧
    c.y.getD 0 < d.y.getD 0 + d.height.getD 0 ∧
    d.y.getD 0 < c.y.getD 0 + c.height.getD 0

instance (c d : Coordinates) : Decidable (uiOverlap c d) := by
  unfold uiOverlap; infer_instance

/-- A redaction set is non-overlapping: no two of its members overlap in UI
space. -/
def nonOverlapping (reds : List Redaction) : Prop :=
  reds.Pairwise (fun r s => ¬ uiOverlap r.coordinates s.coordinates)

/-- Server state visible to the download view: the stored documents (parsed
source PDFs, by id) and the stored redaction rows (by document id). -/
structure ServerState where
  documents : List (ℕ × PdfDocument)
  redactionRows : List (ℕ × Redaction)
deriving DecidableEq, Repr

/-- `get_object_or_404(Document, pk=document_id)` followed by reading the
file: look the source document up by id. -/
def lookupDocument (st : ServerState) (docId : ℕ) : Option PdfDocument :=
  (st.documents.find? (fun e => e.1 == docId)).map Prod.snd

/-- `document.redactions.all()`: the redaction rows stored for the
document. -/
def redactionsOf (st : ServerState) (docId : ℕ) : List Redaction :=
  (st.redactionRows.filter (fun e => e.1 == docId)).map Prod.snd

/-- The request handler `document_download_redacted(request, document_id)`
as a state transformer: it reads the document and its redactions, produces
the output PDF, and performs no write anywhere (the source file is opened
read-only, the writer targets a fresh in-memory buffer, and no model row is
created or updated). `none` is the 404 case. -/
def downloadHandler (st : ServerState) (docId : ℕ) : Option PdfDocument × ServerState :=
  match lookupDocument st docId with
  | none => (none, st)
  | some doc => (some (documentDownloadRedacted doc (redactionsOf st docId)), st)

/-! ### Helper lemmas -/

/-- Closed form of the inner loop: applying a list of redactions to a page
appends, in order, the black square annotation of each one, and changes
nothing else about the page. -/
lemma applyPageRedactions_eq (pg : Page) (l : List Redaction) :
    applyPageRedactions pg l =
      { pg with annots := pg.annots ++ l.map (fun r => blackSquareAnnot pg.mediaboxHeight r.coordinates) } := by
  induction l generalizing pg with
  | nil => simp [applyPageRedactions]
  | cons r rest ih =>
    have h1 : applyPageRedactions pg (r :: rest) =
        applyPageRedactions
          { pg with annots := pg.annots ++ [blackSquareAnnot pg.mediaboxHeight r.coordinates] }
          rest := rfl
    rw [h1, ih]
    simp

lemma burnPages_length (reds : List Redaction) (i : ℕ) (ps : List Page) :
    (burnPages reds i ps).length = ps.length := by
  induction ps generalizing i with
  | nil => rfl
  | cons pg rest ih => simp [burnPages, ih]

/-- Closed form of the page loop, per index. -/
lemma burnPages_getElem? (reds : List Redaction) (i j : ℕ) (ps : List Page) :
    (burnPages reds i ps)[j]? =
      ps[j]?.map (fun pg => applyPageRedactions pg (redactionsForPage reds (i + j))) := by
  induction ps generalizing i j with
  | nil => simp [burnPages]
  | cons pg rest ih =>
    cases j with
    | zero => simp [burnPages]
    | succ j =>
      have harith : i + 1 + j = i + (j + 1) := by omega
      simp [burnPages, ih (i + 1) j, harith]

lemma redactionsForPage_nil (i : ℕ) : redactionsForPage [] i = [] := rfl

lemma burnPages_nil_reds (i : ℕ) (ps : List Page) : burnPages [] i ps = ps := by
  induction ps generalizing i with
  | nil => rfl
  | cons pg rest ih => simp [burnPages, redactionsForPage_nil, applyPageRedactions, ih]

/-! ### Claim theorems -/

/-- C1: for every redaction with stored coordinates `{x, y, width, height}`
burned onto a page whose media-box height is `H`, the rectangle written into
the output PDF is exactly `(x0 = x, y0 = H - y - height, x1 = x + width,
y1 = H - y)` in PDF space, carried by the black square annotation appended
to the page. -/
theorem burned_rect_eq (pg : Page) (t : String) (c : Coordinates) (xv yv wv hv : ℚ)
    (hx : c.x = some xv) (hy : c.y = some yv)
    (hw : c.width = some wv) (hh : c.height = some hv) :
    applyPageRedactions pg [⟨t, c⟩] =
      { pg with annots := pg.annots ++ [{ subtype := "Square", rect := { x0 := xv, y0 := pg.mediaboxHeight - yv - hv, x1 := xv + wv, y1 := pg.mediaboxHeight - yv }, color := (0, 0, 0), interiorColor := (0, 0, 0), borderWidth := 0 }] } := by
  rw [applyPageRedactions_eq]
  have hy1 : pg.mediaboxHeight - yv - hv + hv = pg.mediaboxHeight - yv := by ring
  simp [blackSquareAnnot, hx, hy, hw, hh, hy1]

/-- A one-page, 792-point-high source page for the Scenario A witness. -/
def scenarioPage : Page :=
  { content := "scenario-a-content", mediaboxWidth := 612, mediaboxHeight := 792, annots := [] }

/-- Scenario A coordinates: `{x:100, y:200, width:150, height:20, page:1}`. -/
def scenarioCoords : Coordinates :=
  { x := some 100, y := some 200, width := some 150, height := some 20, page := some 1 }

/-- Witness for C1 at Scenario A: on a 792pt-high page, the redaction
`{x:100, y:200, width:150, height:20}` burns the PDF rectangle
`{x0:100, y0:572, x1:250, y1:592}`. -/
theorem burned_rect_eq_witness :
    scenarioCoords.x = some 100 ∧ scenarioCoords.y = some 200 ∧
    scenarioCoords.width = some 150 ∧ scenarioCoords.height = some 20 ∧
    applyPageRedactions scenarioPage [⟨"area", scenarioCoords⟩] =
      { scenarioPage with annots := [{ subtype := "Square", rect := { x0 := 100, y0 := 572, x1 := 250, y1 := 592 }, color := (0, 0, 0), interiorColor := (0, 0, 0), borderWidth := 0 }] } := by
  refine ⟨rfl, rfl, rfl, rfl, ?_⟩
  have h := burned_rect_eq scenarioPage "area" scenarioCoords 100 200 150 20 rfl rfl rfl rfl
  norm_num [scenarioPage] at h ⊢
  exact h

/-- C5: the output document has the same page count and page order as the
source for any redaction list; with zero redactions the output equals the
source document, and in general every output page keeps the content stream
of the source page at the same position. -/
theorem output_preserves_pages (doc : PdfDocument) (reds : List Redaction) :
    (documentDownloadRedacted doc reds).pages.length = doc.pages.length ∧
    documentDownloadRedacted doc [] = doc ∧
    ∀ i : ℕ, ((documentDownloadRedacted doc reds).pages[i]?).map Page.content =
      (doc.pages[i]?).map Page.content := by
  refine ⟨burnPages_length reds 0 doc.pages, ?_, ?_⟩
  · show PdfDocument.mk (burnPages [] 0 doc.pages) = doc
    rw [burnPages_nil_reds]
  · intro i
    show ((burnPages reds 0 doc.pages)[i]?).map Page.content = _
    rw [burnPages_getElem?]
    cases h : doc.pages[i]? with
    | none => simp [h]
    | some pg => simp [h, applyPageRedactions_eq]

/-- C6: for well-formed inputs (`x, y ≥ 0`, `width, height > 0`,
`0 < H`, `y ≤ H`, `y + height ≤ H`) the mapped PDF-space rectangle
satisfies `0 ≤ y0 ≤ y1 ≤ H` and `x0 ≤ x1`. -/
theorem mapped_rect_wellformed (H xv yv wv hv : ℚ) (c : Coordinates)
    (hx : c.x = some xv) (hy : c.y = some yv)
    (hw : c.width = some wv) (hh : c.height = some hv)
    (hx0 : 0 ≤ xv) (hy0 : 0 ≤ yv) (hwpos : 0 < wv) (hhpos : 0 < hv)
    (hH : 0 < H) (hyle : yv ≤ H) (hyh : yv + hv ≤ H) :
    0 ≤ (blackSquareAnnot H c).rect.y0 ∧
    (blackSquareAnnot H c).rect.y0 ≤ (blackSquareAnnot H c).rect.y1 ∧
    (blackSquareAnnot H c).rect.y1 ≤ H ∧
    (blackSquareAnnot H c).rect.x0 ≤ (blackSquareAnnot H c).rect.x1 := by
  simp only [blackSquareAnnot, hx, hy, hw, hh, Option.getD_some]
  refine ⟨by linarith, by linarith, by linarith, by linarith⟩

/-- Witness for C6 at Scenario A's numbers (`H = 792`, `x = 100`,
`y = 200`, `width = 150`, `height = 20`). -/
theorem mapped_rect_wellformed_witness :
    (0 : ℚ) ≤ 100 ∧ (0 : ℚ) ≤ 200 ∧ (0 : ℚ) < 150 ∧ (0 : ℚ) < 20 ∧
    (0 : ℚ) < 792 ∧ (200 : ℚ) ≤ 792 ∧ (200 : ℚ) + 20 ≤ 792 ∧
    (0 ≤ (blackSquareAnnot 792 scenarioCoords).rect.y0 ∧
      (blackSquareAnnot 792 scenarioCoords).rect.y0 ≤ (blackSquareAnnot 792 scenarioCoords).rect.y1 ∧
      (blackSquareAnnot 792 scenarioCoords).rect.y1 ≤ 792 ∧
      (blackSquareAnnot 792 scenarioCoords).rect.x0 ≤ (blackSquareAnnot 792 scenarioCoords).rect.x1) := by
  refine ⟨by norm_num, by norm_num, by norm_num, by norm_num, by norm_num, by norm_num,
    by norm_num, ?_⟩
  exact mapped_rect_wellformed 792 100 200 150 20 scenarioCoords rfl rfl rfl rfl
    (by norm_num) (by norm_num) (by norm_num) (by norm_num) (by norm_num) (by norm_num)
    (by norm_num)

/-- C7: output page `i` (0-indexed, in document order) receives exactly the
redactions whose stored 1-indexed `page` field equals `i + 1`, appended in
order to that page's annotations; no redaction reaches any other page. -/
theorem redactions_routed_to_matching_page (doc : PdfDocument) (reds : List Redaction) (i : ℕ) :
    ((documentDownloadRedacted doc reds).pages[i]?) =
      (doc.pages[i]?).map (fun pg =>
        { pg with annots := pg.annots ++ (reds.filter (fun r => r.coordinates.page == some ((i : ℤ) + 1))).map (fun r => blackSquareAnnot pg.mediaboxHeight r.coordinates) }) := by
  show (burnPages reds 0 doc.pages)[i]? = _
  rw [burnPages_getElem?]
  cases h : doc.pages[i]? with
  | none => simp [h]
  | some pg => simp [h, applyPageRedactions_eq, redactionsForPage]

/-- C9: the download handler never changes the server state (the source
document bytes and the redaction rows are only read), and a second call on
the post-call state with the same document id returns the same response:
calls are independent and side-effect-free. -/
theorem download_sideeffect_free (st : ServerState) (docId : ℕ) :
    (downloadHandler st docId).2 = st ∧
    (downloadHandler (downloadHandler st docId).2 docId).1 = (downloadHandler st docId).1 := by
  unfold downloadHandler
  cases h : lookupDocument st docId <;> simp [h]

/-- C10: a stored coordinate record whose `x`, `y`, `width` or `height` key
is absent is read with `coords.get(key, 0)`, i.e. as if the key held 0;
with `width` and `height` both absent the burned rectangle is degenerate
(`x1 = x0`, `y1 = y0`), and the download still produces an output document
with the full page count instead of raising an error. -/
theorem missing_keys_default_to_zero (H : ℚ) (cx cy : Option ℚ) (pnum : Option ℤ)
    (doc : PdfDocument) (t : String) :
    blackSquareAnnot H ⟨cx, cy, none, none, pnum⟩ =
      blackSquareAnnot H ⟨some (cx.getD 0), some (cy.getD 0), some 0, some 0, pnum⟩ ∧
    (blackSquareAnnot H ⟨cx, cy, none, none, pnum⟩).rect.x1 =
      (blackSquareAnnot H ⟨cx, cy, none, none, pnum⟩).rect.x0 ∧
    (blackSquareAnnot H ⟨cx, cy, none, none, pnum⟩).rect.y1 =
      (blackSquareAnnot H ⟨cx, cy, none, none, pnum⟩).rect.y0 ∧
    (documentDownloadRedacted doc [⟨t, ⟨cx, cy, none, none, pnum⟩⟩]).pages.length =
      doc.pages.length := by
  refine ⟨rfl, ?_, ?_, burnPages_length _ 0 doc.pages⟩ <;> simp [blackSquareAnnot]

/-- A concrete one-page source document (page height 792pt, no
annotations). -/
def exDoc1 : PdfDocument := ⟨[scenarioPage]⟩

/-- A concrete redaction targeting page 1 of `exDoc1`. -/
def exRed : Redaction := ⟨"area", scenarioCoords⟩

/-- C2: the code stores each black mark as a `/Square` annotation object
instead of flattening it into the page's content stream.  Concretely, on
`exDoc1` with one burned redaction: stripping the annotation objects from
the output recovers the source document exactly, the output page's content
stream is unchanged, and the mark lives solely in the annotation array.
This contradicts the claimed flatten-not-overlay guarantee. -/
theorem redaction_recoverable_by_stripping_annotations :
    stripAnnotations (documentDownloadRedacted exDoc1 [exRed]) = exDoc1 ∧
    (documentDownloadRedacted exDoc1 [exRed]).pages.map Page.content =
      exDoc1.pages.map Page.content ∧
    (documentDownloadRedacted exDoc1 [exRed]).pages.map Page.annots ≠
      exDoc1.pages.map Page.annots := by
  decide

/-- A concrete three-page source document. -/
def threePageDoc : PdfDocument :=
  ⟨[{ content := "p1", mediaboxWidth := 612, mediaboxHeight := 792, annots := [] },
    { content := "p2", mediaboxWidth := 612, mediaboxHeight := 792, annots := [] },
    { content := "p3", mediaboxWidth := 612, mediaboxHeight := 792, annots := [] }]⟩

/-- A redaction whose stored page number 5 is outside `[1, 3]`. -/
def redPage5 : Redaction := ⟨"area", ⟨some 10, some 10, some 50, some 20, some 5⟩⟩

/-- C3 counterexample: against the three-page source, a redaction with
`page:5` does not abort generation with any error — the download returns
the source document unchanged, i.e. the out-of-range redaction is silently
dropped. -/
theorem out_of_range_page_silently_dropped :
    documentDownloadRedacted threePageDoc [redPage5] = threePageDoc := by
  decide

/-- A redaction's stored page number targets an existing page of `doc`.
This is the invariant §3 of the spec demands of stored rows; the code never
checks it. -/
def pageInRange (doc : PdfDocument) (r : Redaction) : Bool :=
  match r.coordinates.page with
  | some k => 1 ≤ k && k ≤ (doc.pages.length : ℤ)
  | none => false

lemma redactionsForPage_filter_pageInRange (doc : PdfDocument) (reds : List Redaction) (n : ℕ)
    (hn : n < doc.pages.length) :
    redactionsForPage (reds.filter (pageInRange doc)) n = redactionsForPage reds n := by
  induction reds with
  | nil => rfl
  | cons r rest ih =>
    unfold redactionsForPage at ih ⊢
    by_cases hp : r.coordinates.page = some ((n : ℤ) + 1)
    · have hin : pageInRange doc r = true := by
        have h1 : (1 : ℤ) ≤ (n : ℤ) + 1 := by omega
        have h2 : (n : ℤ) + 1 ≤ (doc.pages.length : ℤ) := by omega
        simp [pageInRange, hp, h1, h2]
      simp [List.filter_cons, hin, hp, ih]
    · by_cases hin : pageInRange doc r = true
      · simp [List.filter_cons, hin, hp, ih]
      · simp [List.filter_cons, hin, hp, ih]

/-- C3 amended: a redaction whose stored page number is outside
`[1, pageCount]` is silently dropped, not rejected: the output equals the
output for the redaction list with all out-of-range redactions removed,
and no error of any kind is raised. -/
theorem out_of_range_redactions_ignored (doc : PdfDocument) (reds : List Redaction) :
    documentDownloadRedacted doc reds =
      documentDownloadRedacted doc (reds.filter (pageInRange doc)) := by
  show PdfDocument.mk _ = PdfDocument.mk _
  congr 1
  apply List.ext_getElem?
  intro i
  rw [burnPages_getElem?, burnPages_getElem?]
  cases h : doc.pages[i]? with
  | none => simp [h]
  | some pg =>
    have hi : i < doc.pages.length := by
      by_contra hlt
      push_neg at hlt
      rw [List.getElem?_eq_none hlt] at h
      exact Option.noConfusion h
    simp [h, redactionsForPage_filter_pageInRange doc reds i hi]

/-- A redaction with `width:0` on page 1. -/
def redWidth0 : Redaction := ⟨"area", ⟨some 100, some 200, some 0, some 20, some 1⟩⟩

/-- C4 counterexample: a redaction with `width:0` does not abort generation
with any error — the degenerate zero-area rectangle (`x1 = x0 = 100`) is
burned as a black square annotation and an output document is produced. -/
theorem zero_width_burned_without_error :
    (documentDownloadRedacted exDoc1 [redWidth0]).pages.map Page.annots =
      [[{ subtype := "Square", rect := { x0 := 100, y0 := 572, x1 := 100, y1 := 592 }, color := (0, 0, 0), interiorColor := (0, 0, 0), borderWidth := 0 }]] := by
  simp [documentDownloadRedacted, burnPages, redactionsForPage, applyPageRedactions,
    blackSquareAnnot, exDoc1, redWidth0, scenarioPage]
  norm_num

/-- C4 amended: a redaction whose computed PDF-space rectangle has zero
width is not rejected: its degenerate black square annotation is appended
to the page like any other and generation proceeds normally. -/
theorem zero_width_rect_burned_degenerate (pg : Page) (t : String) (c : Coordinates)
    (hw : c.width.getD 0 = 0) :
    (applyPageRedactions pg [⟨t, c⟩]).annots =
      pg.annots ++ [blackSquareAnnot pg.mediaboxHeight c] ∧
    (blackSquareAnnot pg.mediaboxHeight c).rect.x1 =
      (blackSquareAnnot pg.mediaboxHeight c).rect.x0 := by
  constructor
  · rw [applyPageRedactions_eq]
    simp
  · simp [blackSquareAnnot, hw]

/-- Witness for C4 amended at the concrete `width:0` redaction. -/
theorem zero_width_rect_burned_degenerate_witness :
    redWidth0.coordinates.width.getD 0 = 0 ∧
    ((applyPageRedactions scenarioPage [⟨"area", redWidth0.coordinates⟩]).annots =
      scenarioPage.annots ++ [blackSquareAnnot scenarioPage.mediaboxHeight redWidth0.coordinates] ∧
    (blackSquareAnnot scenarioPage.mediaboxHeight redWidth0.coordinates).rect.x1 =
      (blackSquareAnnot scenarioPage.mediaboxHeight redWidth0.coordinates).rect.x0) :=
  ⟨by decide,
    zero_width_rect_burned_degenerate scenarioPage "area" redWidth0.coordinates (by decide)⟩

lemma pageVisEq_apply_twice (pg : Page) (l : List Redaction) :
    pageVisEq (applyPageRedactions (applyPageRedactions pg l) l) (applyPageRedactions pg l) := by
  simp only [applyPageRedactions_eq]
  refine ⟨rfl, rfl, rfl, ?_⟩
  intro pt
  simp only [blackAt, List.mem_append]
  constructor
  · rintro ⟨a, ha, hcol, hin⟩
    exact ⟨a, by tauto, hcol, hin⟩
  · rintro ⟨a, ha, hcol, hin⟩
    exact ⟨a, by tauto, hcol, hin⟩

lemma burnPages_twice_visEq (reds : List Redaction) (i : ℕ) (ps : List Page) :
    List.Forall₂ pageVisEq (burnPages reds i (burnPages reds i ps)) (burnPages reds i ps) := by
  induction ps generalizing i with
  | nil => exact List.Forall₂.nil
  | cons pg rest ih =>
    exact List.Forall₂.cons (pageVisEq_apply_twice pg (redactionsForPage reds i)) (ih (i + 1))

/-- C8: burning a non-overlapping redaction set a second time into the
already-redacted output yields a document visually indistinguishable from
burning it once — same content streams, same media boxes, and the
annotation layers paint black exactly the same points. -/
theorem burn_idempotent_visually (doc : PdfDocument) (reds : List Redaction)
    (h : nonOverlapping reds) :
    docVisEq (documentDownloadRedacted (documentDownloadRedacted doc reds) reds)
      (documentDownloadRedacted doc reds) :=
  burnPages_twice_visEq reds 0 doc.pages

/-- First of two disjoint redactions on page 1. -/
def idemRedA : Redaction := ⟨"area", ⟨some 10, some 10, some 20, some 20, some 1⟩⟩

/-- Second of two disjoint redactions on page 1. -/
def idemRedB : Redaction := ⟨"area", ⟨some 50, some 50, some 20, some 20, some 1⟩⟩

/-- Witness for C8 on a concrete non-overlapping two-redaction set. -/
theorem burn_idempotent_visually_witness :
    nonOverlapping [idemRedA, idemRedB] ∧
    docVisEq
      (documentDownloadRedacted (documentDownloadRedacted exDoc1 [idemRedA, idemRedB])
        [idemRedA, idemRedB])
      (documentDownloadRedacted exDoc1 [idemRedA, idemRedB]) := by
  have hno : nonOverlapping [idemRedA, idemRedB] := by
    simp [nonOverlapping, uiOverlap, idemRedA, idemRedB]
    norm_num
  exact ⟨hno, burn_idempotent_visually exDoc1 [idemRedA, idemRedB] hno⟩

end RedactionEngine
